import Mathlib

set_option autoImplicit false

/-!
# Verification of the task-dashboard data pipeline (`src/app.py`)

Shallow embedding of the pure core of `app.py`: the date-math helpers
(`calculate_working_days`, `calculate_calendar_days`, `is_today`, `is_weekend`),
the enrichment/aggregation step of `get_tasks_data` (steps 7–9), the fetch
sequence (steps 2–6b) modelled against an abstract RPC server, and the
top-level error handler.

Datetimes are modelled as natural numbers of seconds; a day is 86400 seconds,
`dateOf t = t / 86400` is the calendar date (an ordinal day number), and the
weekday of day `d` is `(d + 3) % 7` with Monday = 0 (day 0 is a Thursday,
matching the Unix epoch and Python's `date.weekday`).
-/

namespace TaskDashboard

/-- `t.date()`: the ordinal day number of a datetime. -/
def dateOf (t : Nat) : Nat := t / 86400

/-- Python `weekday()` of an ordinal day number: Monday is 0, Sunday is 6.
Day 0 is a Thursday (weekday 3), as at the Unix epoch. -/
def weekday (d : Nat) : Nat := (d + 3) % 7

/-- `is_today(date_to_check, current_date)` from `app.py` lines 41–43:
`date_to_check.date() == current_date.date()`. -/
def is_today (date_to_check current_date : Nat) : Bool :=
  dateOf date_to_check == dateOf current_date

/-- `is_weekend(date_to_check)` from `app.py` lines 45–47:
`date_to_check.weekday() >= 5` (Saturday = 5, Sunday = 6). -/
def is_weekend (date_to_check : Nat) : Bool :=
  5 ≤ weekday (dateOf date_to_check)

/-- The `while current_date < end_date` loop of `calculate_working_days`
(`app.py` lines 21–28): count the current datetime's weekday when it is
Monday–Friday, then advance by one whole day (86400 s). -/
def workingDaysLoop (current_date end_date : Nat) : Nat :=
  if h : current_date < end_date then
    (if weekday (dateOf current_date) < 5 then 1 else 0) +
      workingDaysLoop (current_date + 86400) end_date
  else 0
termination_by end_date - current_date
decreasing_by exact Nat.sub_lt_sub_left h (Nat.lt_add_of_pos_right (by norm_num))

/-- `calculate_working_days(start_date, end_date)` from `app.py` lines 16–30. -/
def calculate_working_days (start_date end_date : Nat) : Nat :=
  if start_date ≥ end_date then 0
  else workingDaysLoop start_date end_date

/-- `calculate_calendar_days(start_date, end_date)` from `app.py` lines 32–39:
0 when `start_date >= end_date`, else `(end_date.date() - start_date.date()).days`. -/
def calculate_calendar_days (start_date end_date : Nat) : Nat :=
  if start_date ≥ end_date then 0
  else dateOf end_date - dateOf start_date

/-- Modelled from the spec: the number of weekdays (Monday–Friday) among the
half-open range of day numbers `[lo, hi)`.  This is the spec's description of
`calculate_working_days` ("counts weekdays (Mon–Fri) in the half-open date
range [a.date, b.date)"), written for comparison with the source function. -/
def weekdayCountInRange (lo hi : Nat) : Nat :=
  (List.range (hi - lo)).countP (fun k => weekday (lo + k) < 5)

theorem dateOf_add_day (t : Nat) : dateOf (t + 86400) = dateOf t + 1 := by
  unfold dateOf
  omega

theorem workingDaysLoop_eq_aux (fin : Nat) (m : Nat) :
    ∀ cur : Nat, fin - cur ≤ m →
      workingDaysLoop cur fin =
        (List.range ((fin - cur + 86399) / 86400)).countP
          (fun k => weekday (dateOf cur + k) < 5) := by
  induction m with
  | zero =>
    intro cur h
    rw [workingDaysLoop]
    have hge : ¬ cur < fin := by omega
    have h0 : (fin - cur + 86399) / 86400 = 0 := by omega
    simp [hge, h0]
  | succ m ih =>
    intro cur h
    rw [workingDaysLoop]
    split
    · rename_i hlt
      rw [ih (cur + 86400) (by omega)]
      have hceil : (fin - cur + 86399) / 86400 =
          (fin - (cur + 86400) + 86399) / 86400 + 1 := by omega
      rw [hceil, List.range_succ_eq_map, List.countP_cons, List.countP_map]
      simp only [dateOf_add_day]
      have harg : ((fun k => decide (weekday (dateOf cur + k) < 5)) ∘ (· + 1)) =
          (fun k => decide (weekday (dateOf cur + 1 + k) < 5)) := by
        funext k
        simp only [Function.comp_apply]
        have e : dateOf cur + (k + 1) = dateOf cur + 1 + k := by omega
        rw [e]
      rw [harg]
      simp only [Nat.add_zero]
      by_cases hw : weekday (dateOf cur) < 5 <;> simp [hw] <;> omega
    · rename_i hge
      have h0 : (fin - cur + 86399) / 86400 = 0 := by omega
      simp [h0]

/-- The loop visits the datetimes `cur + 86400·k` for `k < ⌈(fin − cur)/86400⌉`,
so it counts the weekdays among the day numbers `dateOf cur + k` for those `k`. -/
theorem workingDaysLoop_eq (cur fin : Nat) :
    workingDaysLoop cur fin =
      (List.range ((fin - cur + 86399) / 86400)).countP
        (fun k => weekday (dateOf cur + k) < 5) :=
  workingDaysLoop_eq_aux fin (fin - cur) cur (Nat.le_refl _)

/-- **C2** (counterexample). The claim says `calculate_working_days(a, b)` counts
the weekdays in the half-open date range `[a.date, b.date)`.  Taking
`a` = Monday 01:00 (day 4, second 349200) and `b` = Tuesday 23:00 (day 5,
second 514800): the loop advances from `a` in whole 24-hour steps and visits
Monday and Tuesday, returning 2, while the half-open range `[4, 5)` holds a
single weekday. -/
theorem calculate_working_days_counterexample :
    calculate_working_days 349200 514800 = 2 ∧
    weekdayCountInRange (dateOf 349200) (dateOf 514800) = 1 := by
  constructor
  · rw [calculate_working_days, if_neg (by norm_num), workingDaysLoop_eq]
    rfl
  · rfl

/-- **C2** (amended). `calculate_working_days(a, b)` returns 0 when `a ≥ b`;
otherwise it counts weekdays (Monday–Friday) in the half-open date range
`[a.date, b.date)` when `b`'s time of day is at most `a`'s time of day, and
in the closed range `[a.date, b.date]` when `b`'s time of day is later than
`a`'s (the loop steps in whole days from `a`'s exact timestamp, so `b`'s date
is reached exactly when `b`'s time of day exceeds `a`'s). -/
theorem calculate_working_days_spec (a b : Nat) :
    (a ≥ b → calculate_working_days a b = 0) ∧
    (a < b → calculate_working_days a b =
      if b % 86400 ≤ a % 86400
      then weekdayCountInRange (dateOf a) (dateOf b)
      else weekdayCountInRange (dateOf a) (dateOf b + 1)) := by
  constructor
  · intro hge
    simp [calculate_working_days, hge]
  · intro hlt
    have hnge : ¬ a ≥ b := by omega
    rw [calculate_working_days, if_neg hnge, workingDaysLoop_eq]
    by_cases hb : b % 86400 ≤ a % 86400
    · rw [if_pos hb]
      have hN : (b - a + 86399) / 86400 = dateOf b - dateOf a := by
        unfold dateOf
        omega
      rw [hN]
      rfl
    · rw [if_neg hb]
      have hN : (b - a + 86399) / 86400 = dateOf b + 1 - dateOf a := by
        unfold dateOf
        omega
      rw [hN]
      rfl

theorem calculate_working_days_spec_witness :
    calculate_working_days 514800 349200 = 0 ∧
    calculate_working_days 349200 514800 =
      (if 514800 % 86400 ≤ 349200 % 86400
       then weekdayCountInRange (dateOf 349200) (dateOf 514800)
       else weekdayCountInRange (dateOf 349200) (dateOf 514800 + 1)) :=
  ⟨(calculate_working_days_spec 514800 349200).1 (by norm_num),
   (calculate_working_days_spec 349200 514800).2 (by norm_num)⟩

/-- **C5** (confirmed). `calculate_calendar_days(a, b)` returns 0 when
`a ≥ b`, and otherwise the number of whole calendar days between the two
dates, `b.date − a.date`. -/
theorem calculate_calendar_days_spec (a b : Nat) :
    (a ≥ b → calculate_calendar_days a b = 0) ∧
    (a < b → (calculate_calendar_days a b : Int) =
      (dateOf b : Int) - (dateOf a : Int)) := by
  constructor
  · intro hge
    simp [calculate_calendar_days, hge]
  · intro hlt
    have hnge : ¬ a ≥ b := by omega
    rw [calculate_calendar_days, if_neg hnge]
    have hmono : dateOf a ≤ dateOf b := by
      unfold dateOf
      omega
    omega

theorem calculate_calendar_days_spec_witness :
    calculate_calendar_days 200000 100000 = 0 ∧
    (calculate_calendar_days 100000 200000 : Int) =
      (dateOf 200000 : Int) - (dateOf 100000 : Int) :=
  ⟨(calculate_calendar_days_spec 200000 100000).1 (by norm_num),
   (calculate_calendar_days_spec 100000 200000).2 (by norm_num)⟩

/-!
## Data model

Odoo records as fetched by `get_tasks_data`.  A many2one field is `[id, name]`
or `false` in the JSON payload, modelled as `Option (Nat × String)`.  The
`date_deadline` string is parsed by `datetime.fromisoformat`; the parsed
timestamp (seconds) is what the model stores.
-/

/-- A `project.task` record (fields of the `search_read` in step 2). -/
structure Task where
  id : Nat
  name : String
  project_id : Option (Nat × String)
  stage_id : Option (Nat × String)
  date_deadline : Option Nat
  user_ids : List Nat
  state : Option String
  is_closed : Option Bool
deriving DecidableEq

/-- A `project.project` record (fields `id`, `name`, `user_id`, `stage_id`);
`user_id` is the manager reference. -/
structure Project where
  id : Nat
  name : String
  user_id : Option (Nat × String)
  stage_id : Option (Nat × String)
deriving DecidableEq

/-- A `res.users` record. -/
structure User where
  id : Nat
  name : String
deriving DecidableEq

/-- A `project.task.type` or `project.project.stage` record. -/
structure Stage where
  id : Nat
  name : String
deriving DecidableEq

/-- Lookup in a Python dict built by a comprehension: when a key occurs more
than once the later binding wins. -/
def dictGet {α : Type} (l : List (Nat × α)) (k : Nat) : Option α :=
  match l with
  | [] => none
  | (k', v) :: rest =>
    match dictGet rest k with
    | some w => some w
    | none => if k' = k then some v else none

/-- `d.get(k, dflt)` where the key may be Python `None` (never present in an
int-keyed dict, so `None` takes the default). -/
def dictGetD (l : List (Nat × String)) (k : Option Nat) (dflt : String) : String :=
  match k with
  | none => dflt
  | some k => (dictGet l k).getD dflt

/-- The five lookup tables of step 7 plus the project→project-stage mapping. -/
structure Lookups where
  project_managers : List (Nat × String)
  project_names : List (Nat × String)
  user_names : List (Nat × String)
  task_stage_names : List (Nat × String)
  project_stage_names : List (Nat × String)
  project_stage_mapping : List (Nat × Option Nat)

/-- Step 7 of `get_tasks_data` (`app.py` lines 235–265): build the lookup maps. -/
def buildLookups (projects : List Project) (users : List User)
    (task_stages project_stages : List Stage) : Lookups :=
  { project_managers := projects.map fun p =>
      (p.id, match p.user_id with
             | some u => u.2
             | none => "No Manager"),
    project_names := projects.map fun p => (p.id, p.name),
    user_names := users.map fun u => (u.id, u.name),
    task_stage_names := task_stages.map fun s => (s.id, s.name),
    project_stage_names := project_stages.map fun s => (s.id, s.name),
    project_stage_mapping := projects.map fun p => (p.id, p.stage_id.map (·.1)) }

/-- An entry of `processed_tasks` (`app.py` lines 333–354). -/
structure ProcessedTask where
  id : Nat
  name : String
  project_name : String
  manager : String
  stage_id : Option Nat
  stage_name : String
  project_stage_id : Option Nat
  project_stage_name : String
  deadline : Option Nat
  assignees : List String
  is_done : Bool
  is_cancelled : Bool
  is_overdue : Bool
  days_overdue : Nat
  calendar_days_to_deadline : Nat
  working_days_to_deadline : Nat
  is_deadline_today : Bool
  is_deadline_weekend : Bool
  task_state : Option String
  task_state_label : String
deriving DecidableEq

/-- The deadline-derived fields, initialised to the defaults of
`app.py` lines 305–310 and then set by the block at lines 312–323. -/
structure DeadlineFields where
  is_overdue : Bool := false
  days_overdue : Nat := 0
  calendar_days_to_deadline : Nat := 0
  working_days_to_deadline : Nat := 0
  is_deadline_today : Bool := false
  is_deadline_weekend : Bool := false
deriving DecidableEq

/-- `app.py` lines 304–323: the deadline block.  `is_deadline_today` and
`is_deadline_weekend` are set whenever a deadline exists; the overdue /
days-to-deadline fields only when the task is neither done nor cancelled. -/
def deadlineFields (current_time : Nat) (is_done is_cancelled : Bool)
    (deadline_dt : Option Nat) : DeadlineFields :=
  match deadline_dt with
  | none => {}
  | some dl =>
    let today := is_today dl current_time
    let wkend := is_weekend dl
    if !is_done && !is_cancelled then
      if dateOf dl < dateOf current_time then
        { is_overdue := true,
          days_overdue := dateOf current_time - dateOf dl,
          is_deadline_today := today,
          is_deadline_weekend := wkend }
      else
        { calendar_days_to_deadline := calculate_calendar_days current_time dl,
          working_days_to_deadline := calculate_working_days current_time dl,
          is_deadline_today := today,
          is_deadline_weekend := wkend }
    else
      { is_deadline_today := today, is_deadline_weekend := wkend }

/-- `app.py` lines 294–301: the fixed state-label table, with `"Unknown"` for
unmapped codes (and for a missing state). -/
def stateLabel (task_state : Option String) : String :=
  match task_state with
  | some "01_in_progress" => "In Progress"
  | some "02_changes_requested" => "Changes Requested"
  | some "03_approved" => "Approved"
  | some "1_canceled" => "Cancelled"
  | some "1_done" => "Done"
  | some "04_waiting_normal" => "Waiting"
  | _ => "Unknown"

/-- The body of the per-task loop of step 8 (`app.py` lines 274–354). -/
def processTask (lk : Lookups) (current_time : Nat) (task : Task) : ProcessedTask :=
  let project_id : Option Nat := task.project_id.map (·.1)
  let project_name := dictGetD lk.project_names project_id "No Project"
  let manager := dictGetD lk.project_managers project_id "Unknown"
  let task_stage_id : Option Nat := task.stage_id.map (·.1)
  let task_stage_name := dictGetD lk.task_stage_names task_stage_id "No Stage"
  let project_stage_id : Option Nat :=
    match project_id with
    | none => none
    | some pid =>
      match dictGet lk.project_stage_mapping pid with
      | none => none
      | some v => v
  let project_stage_name := dictGetD lk.project_stage_names project_stage_id "No Project Stage"
  let assignees := task.user_ids.map fun u =>
    (dictGet lk.user_names u).getD ("User " ++ toString u)
  let task_state := task.state
  let is_done := task.is_closed == some true
  let is_cancelled := task_state == some "1_canceled"
  let df := deadlineFields current_time is_done is_cancelled task.date_deadline
  { id := task.id,
    name := task.name,
    project_name := project_name,
    manager := manager,
    stage_id := task_stage_id,
    stage_name := task_stage_name,
    project_stage_id := project_stage_id,
    project_stage_name := project_stage_name,
    deadline := task.date_deadline,
    assignees := assignees,
    is_done := is_done,
    is_cancelled := is_cancelled,
    is_overdue := df.is_overdue,
    days_overdue := df.days_overdue,
    calendar_days_to_deadline := df.calendar_days_to_deadline,
    working_days_to_deadline := df.working_days_to_deadline,
    is_deadline_today := df.is_deadline_today,
    is_deadline_weekend := df.is_deadline_weekend,
    task_state := task_state,
    task_state_label := stateLabel task_state }

/-- The `statistics` object (`app.py` lines 399–405).  The first four counts
are the loop counters; `in_progress` is computed as
`len(processed_tasks) - done_count - cancelled_count - overdue_count`,
an integer subtraction. -/
structure Statistics where
  total : Nat
  done : Nat
  cancelled : Nat
  overdue : Nat
  in_progress : Int
deriving DecidableEq

/-- A per-stage counter bucket (`app.py` lines 362–368). -/
structure StageCounts where
  total : Nat
  done : Nat
  overdue : Nat
  in_progress : Nat
  cancelled : Nat
deriving DecidableEq

/-- `app.py` lines 370–379: bump a stage bucket for one processed task. -/
def bumpStage (t : ProcessedTask) (s : StageCounts) : StageCounts :=
  let s := { s with total := s.total + 1 }
  if t.is_done then { s with done := s.done + 1 }
  else if t.is_cancelled then { s with cancelled := s.cancelled + 1 }
  else if t.is_overdue then { s with overdue := s.overdue + 1 }
  else { s with in_progress := s.in_progress + 1 }

/-- One iteration of the step-9 loop (`app.py` lines 359–379): insert a fresh
zero bucket for an unseen project-stage name, then bump it.  The association
list keeps the dict's insertion order. -/
def updateStageStats (stats : List (String × StageCounts)) (t : ProcessedTask) :
    List (String × StageCounts) :=
  if stats.any (fun e => e.1 == t.project_stage_name) then
    stats.map fun e =>
      if e.1 == t.project_stage_name then (e.1, bumpStage t e.2) else e
  else
    stats ++ [(t.project_stage_name, bumpStage t ⟨0, 0, 0, 0, 0⟩)]

/-- `stage_stats` after the step-9 loop. -/
def stageStatsOf (pts : List ProcessedTask) : List (String × StageCounts) :=
  pts.foldl updateStageStats []

/-- Python `round(x, 1)`: round to one decimal place.  The float value is
modelled as a rational. -/
def round1 (x : ℚ) : ℚ := (round (x * 10) : ℚ) / 10

/-- One value of the `stage_percentages` dict (`app.py` lines 385–395). -/
structure StageEntry where
  total : Nat
  done_percentage : ℚ
  overdue_percentage : ℚ
  in_progress_percentage : ℚ
  cancelled_percentage : ℚ
  done_count : Nat
  overdue_count : Nat
  in_progress_count : Nat
  cancelled_count : Nat
deriving DecidableEq

/-- `app.py` lines 385–395: percentages and counts for one stage bucket. -/
def stageEntry (s : StageCounts) : StageEntry :=
  { total := s.total,
    done_percentage := round1 ((s.done : ℚ) / (s.total : ℚ) * 100),
    overdue_percentage := round1 ((s.overdue : ℚ) / (s.total : ℚ) * 100),
    in_progress_percentage := round1 ((s.in_progress : ℚ) / (s.total : ℚ) * 100),
    cancelled_percentage := round1 ((s.cancelled : ℚ) / (s.total : ℚ) * 100),
    done_count := s.done,
    overdue_count := s.overdue,
    in_progress_count := s.in_progress,
    cancelled_count := s.cancelled }

/-- `app.py` lines 382–395: keep only buckets with `total > 0` (all of them,
since buckets only form from tasks) and attach percentages. -/
def stagePercentages (stats : List (String × StageCounts)) :
    List (String × StageEntry) :=
  stats.filterMap fun e =>
    if e.2.total > 0 then some (e.1, stageEntry e.2) else none

/-- The JSON payload returned by `get_tasks_data`; `error` is `none` on the
success path (the success dict carries no `error` key). -/
structure Result where
  tasks : List ProcessedTask
  statistics : Statistics
  stage_statistics : List (String × StageEntry)
  error : Option String
deriving DecidableEq

/-- Steps 7–9 of `get_tasks_data` (`app.py` lines 235–407): enrich every task,
tally the counters of lines 325–331, and aggregate the stage statistics.  The
loop's counter increments are rendered as `countP` with the `if`/`elif`
conditions, and `in_progress` is `total` minus the three counters as on
line 404. -/
def process (tasks : List Task) (projects : List Project) (users : List User)
    (task_stages project_stages : List Stage) (current_time : Nat) : Result :=
  let lk := buildLookups projects users task_stages project_stages
  let processed_tasks := tasks.map (processTask lk current_time)
  let done_count := processed_tasks.countP fun t => t.is_done
  let cancelled_count := processed_tasks.countP fun t => !t.is_done && t.is_cancelled
  let overdue_count := processed_tasks.countP fun t =>
    !t.is_done && !t.is_cancelled && t.is_overdue
  { tasks := processed_tasks,
    statistics :=
      { total := processed_tasks.length,
        done := done_count,
        cancelled := cancelled_count,
        overdue := overdue_count,
        in_progress := (processed_tasks.length : Int) - done_count - cancelled_count
          - overdue_count },
    stage_statistics := stagePercentages (stageStatsOf processed_tasks),
    error := none }

/-!
## The fetch sequence and the top-level handler

The remote backend is abstracted as a record of response functions: each RPC
call either produces a payload or fails (a raised exception carrying a
message).  `json_rpc` itself only unwraps `result` or raises, so its behaviour
is folded into the response functions.
-/

/-- Step 3 (`app.py` lines 139–150): the distinct project ids referenced by
the fetched tasks, as `list(set(...))` — deduplicated, order immaterial. -/
def taskProjectIds (tasks : List Task) : List Nat :=
  tasks.foldl
    (fun acc t =>
      match t.project_id with
      | some p => if p.1 ∈ acc then acc else acc ++ [p.1]
      | none => acc)
    []

/-- Step 3: the distinct assignee user ids over all tasks. -/
def taskUserIds (tasks : List Task) : List Nat :=
  tasks.foldl
    (fun acc t => t.user_ids.foldl (fun a u => if u ∈ a then a else a ++ [u]) acc)
    []

/-- Step 3: the distinct task-stage ids. -/
def taskStageIds (tasks : List Task) : List Nat :=
  tasks.foldl
    (fun acc t =>
      match t.stage_id with
      | some s => if s.1 ∈ acc then acc else acc ++ [s.1]
      | none => acc)
    []

/-- Step 6b (`app.py` lines 210–213): the distinct project-stage ids of the
fetched projects. -/
def projectStageIds (projects : List Project) : List Nat :=
  projects.foldl
    (fun acc p =>
      match p.stage_id with
      | some s => if s.1 ∈ acc then acc else acc ++ [s.1]
      | none => acc)
    []

/-- The remote backend, as response functions for the five RPC calls of
`get_tasks_data`.  `Except.error msg` models a raised exception whose
`str` is `msg`.  `auth` yields the session uid; Odoo's falsy `false`
session id is modelled as 0. -/
structure Server where
  auth : Except String Nat
  searchTasks : Except String (List Task)
  readProjects : List Nat → Except String (List Project)
  readUsers : List Nat → Except String (List User)
  readTaskStages : List Nat → Except String (List Stage)
  readProjectStages : List Nat → Except String (List Stage)

/-- The body of the `try` block of `get_tasks_data` (`app.py` lines 101–407):
authenticate, fetch tasks, issue the three unconditional `read` calls, the
guarded project-stage `read` (lines 215–233), then process. -/
def run_pipeline (srv : Server) (current_time : Nat) : Except String Result :=
  match srv.auth with
  | .error e => .error e
  | .ok uid =>
    if uid = 0 then .error "Failed to authenticate"
    else
      match srv.searchTasks with
      | .error e => .error e
      | .ok tasks =>
        match srv.readProjects (taskProjectIds tasks) with
        | .error e => .error e
        | .ok projects =>
          match srv.readUsers (taskUserIds tasks) with
          | .error e => .error e
          | .ok users =>
            match srv.readTaskStages (taskStageIds tasks) with
            | .error e => .error e
            | .ok task_stages =>
              match
                (if projectStageIds projects = [] then .ok []
                 else srv.readProjectStages (projectStageIds projects)) with
              | .error e => .error e
              | .ok project_stages =>
                .ok (process tasks projects users task_stages project_stages
                  current_time)

/-- The `except` payload of `app.py` lines 409–422. -/
def errorResult (e : String) : Result :=
  { tasks := [],
    statistics := { total := 0, done := 0, cancelled := 0, overdue := 0, in_progress := 0 },
    stage_statistics := [],
    error := some e }

/-- `get_tasks_data()` (`app.py` lines 99–422): the pipeline with its
top-level exception handler. -/
def get_tasks_data (srv : Server) (current_time : Nat) : Result :=
  match run_pipeline srv current_time with
  | .ok r => r
  | .error e => errorResult e

/-!
## Claim theorems
-/

/-- **C4** (confirmed).  Every exception raised during authenticate, fetch or
process is caught by the top-level handler, which returns the success shape
with an empty task list, all five statistics counts zero, empty stage
statistics, and an `error` field holding the exception's message. -/
theorem pipeline_error_handling (srv : Server) (current_time : Nat) (e : String)
    (h : run_pipeline srv current_time = .error e) :
    get_tasks_data srv current_time =
      { tasks := [],
        statistics := { total := 0, done := 0, cancelled := 0, overdue := 0,
                        in_progress := 0 },
        stage_statistics := [],
        error := some e } := by
  unfold get_tasks_data
  rw [h]
  rfl

theorem pipeline_error_handling_witness :
    get_tasks_data
      { auth := .error "boom",
        searchTasks := .ok [],
        readProjects := fun _ => .ok [],
        readUsers := fun _ => .ok [],
        readTaskStages := fun _ => .ok [],
        readProjectStages := fun _ => .ok [] } 0 =
      { tasks := [],
        statistics := { total := 0, done := 0, cancelled := 0, overdue := 0,
                        in_progress := 0 },
        stage_statistics := [],
        error := some "boom" } :=
  pipeline_error_handling _ 0 "boom" rfl

/-- **C3** (counterexample).  With no fetched tasks every referenced-id set is
empty, yet the projects `read` call is still issued (with an empty id list):
a backend whose projects read fails is observed failing, so the call was not
skipped as the claim states. -/
theorem fetch_empty_ids_counterexample :
    get_tasks_data
      { auth := .ok 1,
        searchTasks := .ok [],
        readProjects := fun _ => .error "projects read issued",
        readUsers := fun _ => .ok [],
        readTaskStages := fun _ => .ok [],
        readProjectStages := fun _ => .ok [] } 0 =
      errorResult "projects read issued" := rfl

/-- **C3** (amended).  Only the project-stage read is guarded: when the
project-stage id set derived from the fetched projects is empty, the
project-stage read is skipped and its collection is empty — the pipeline's
result does not depend on the project-stage reader at all.  The project, user
and task-stage reads are issued unconditionally, even with an empty id list
(see the counterexample). -/
theorem fetch_project_stage_read_skipped (srv : Server)
    (f : List Nat → Except String (List Stage)) (current_time : Nat)
    (h : ∀ ids ps, srv.readProjects ids = .ok ps → projectStageIds ps = []) :
    get_tasks_data { srv with readProjectStages := f } current_time =
      get_tasks_data srv current_time := by
  obtain ⟨auth, st, rp, ru, rts, rps⟩ := srv
  unfold get_tasks_data run_pipeline
  cases auth with
  | error e => rfl
  | ok uid =>
    dsimp only
    by_cases hu : uid = 0
    · simp [hu]
    · simp only [if_neg hu]
      cases st with
      | error e => rfl
      | ok tasks =>
        dsimp only
        cases hp : rp (taskProjectIds tasks) with
        | error e => rfl
        | ok projects =>
          dsimp only
          have hps : projectStageIds projects = [] := h _ _ hp
          rw [hps]
          rfl

theorem fetch_project_stage_read_skipped_witness :
    get_tasks_data
      { auth := .ok 1,
        searchTasks := .ok [],
        readProjects := fun _ => .ok [],
        readUsers := fun _ => .ok [],
        readTaskStages := fun _ => .ok [],
        readProjectStages := fun _ => .error "unexpected" } 0 =
      get_tasks_data
      { auth := .ok 1,
        searchTasks := .ok [],
        readProjects := fun _ => .ok [],
        readUsers := fun _ => .ok [],
        readTaskStages := fun _ => .ok [],
        readProjectStages := fun _ => .ok [] } 0 :=
  fetch_project_stage_read_skipped
    { auth := .ok 1,
      searchTasks := .ok [],
      readProjects := fun _ => .ok [],
      readUsers := fun _ => .ok [],
      readTaskStages := fun _ => .ok [],
      readProjectStages := fun _ => .ok [] }
    (fun _ => .error "unexpected") 0
    (fun ids ps hp => by injection hp with h2; rw [← h2]; rfl)

theorem length_eq_countP_four (l : List ProcessedTask) :
    l.length =
      l.countP (fun t => t.is_done) +
      l.countP (fun t => !t.is_done && t.is_cancelled) +
      l.countP (fun t => !t.is_done && !t.is_cancelled && t.is_overdue) +
      l.countP (fun t => !t.is_done && !t.is_cancelled && !t.is_overdue) := by
  induction l with
  | nil => rfl
  | cons t l ih =>
    simp only [List.countP_cons, List.length_cons]
    cases hd : t.is_done <;> cases hc : t.is_cancelled <;> cases ho : t.is_overdue <;>
      simp [hd, hc, ho] <;> omega

/-- **C1** (confirmed).  In the processing step every task is counted in
exactly one of done / cancelled / overdue / in-progress, chosen by the
priority order done > cancelled > overdue > in-progress (the `if`/`elif`
chain), and `total = done + cancelled + overdue + in_progress`. -/
theorem statistics_partition (tasks : List Task) (ps : List Project)
    (us : List User) (ts rs : List Stage) (now : Nat) :
    ((process tasks ps us ts rs now).statistics.total : Int) =
        (process tasks ps us ts rs now).statistics.done +
        (process tasks ps us ts rs now).statistics.cancelled +
        (process tasks ps us ts rs now).statistics.overdue +
        (process tasks ps us ts rs now).statistics.in_progress ∧
    (process tasks ps us ts rs now).statistics.total =
        (process tasks ps us ts rs now).tasks.length ∧
    (process tasks ps us ts rs now).statistics.done =
        (process tasks ps us ts rs now).tasks.countP (fun t => t.is_done) ∧
    (process tasks ps us ts rs now).statistics.cancelled =
        (process tasks ps us ts rs now).tasks.countP
          (fun t => !t.is_done && t.is_cancelled) ∧
    (process tasks ps us ts rs now).statistics.overdue =
        (process tasks ps us ts rs now).tasks.countP
          (fun t => !t.is_done && !t.is_cancelled && t.is_overdue) ∧
    (process tasks ps us ts rs now).statistics.in_progress =
        ((process tasks ps us ts rs now).tasks.countP
          (fun t => !t.is_done && !t.is_cancelled && !t.is_overdue) : Int) ∧
    ∀ t ∈ (process tasks ps us ts rs now).tasks,
      [t.is_done, !t.is_done && t.is_cancelled,
       !t.is_done && !t.is_cancelled && t.is_overdue,
       !t.is_done && !t.is_cancelled && !t.is_overdue].count true = 1 := by
  have key := length_eq_countP_four
    (tasks.map (processTask (buildLookups ps us ts rs) now))
  refine ⟨?_, ?_, ?_, ?_, ?_, ?_, ?_⟩
  · simp only [process]
    omega
  · simp only [process]
  · simp only [process]
  · simp only [process]
  · simp only [process]
  · simp only [process]
    omega
  · intro t ht
    cases hd : t.is_done <;> cases hc : t.is_cancelled <;> cases ho : t.is_overdue <;>
      simp [hd, hc, ho]

theorem statistics_partition_witness :
    ((process [⟨1, "t", none, none, none, [], none, none⟩] [] [] [] [] 0).statistics.total : Int) =
        (process [⟨1, "t", none, none, none, [], none, none⟩] [] [] [] [] 0).statistics.done +
        (process [⟨1, "t", none, none, none, [], none, none⟩] [] [] [] [] 0).statistics.cancelled +
        (process [⟨1, "t", none, none, none, [], none, none⟩] [] [] [] [] 0).statistics.overdue +
        (process [⟨1, "t", none, none, none, [], none, none⟩] [] [] [] [] 0).statistics.in_progress ∧
    [(processTask (buildLookups [] [] [] []) 0 ⟨1, "t", none, none, none, [], none, none⟩).is_done,
     !(processTask (buildLookups [] [] [] []) 0 ⟨1, "t", none, none, none, [], none, none⟩).is_done &&
       (processTask (buildLookups [] [] [] []) 0 ⟨1, "t", none, none, none, [], none, none⟩).is_cancelled,
     !(processTask (buildLookups [] [] [] []) 0 ⟨1, "t", none, none, none, [], none, none⟩).is_done &&
       !(processTask (buildLookups [] [] [] []) 0 ⟨1, "t", none, none, none, [], none, none⟩).is_cancelled &&
       (processTask (buildLookups [] [] [] []) 0 ⟨1, "t", none, none, none, [], none, none⟩).is_overdue,
     !(processTask (buildLookups [] [] [] []) 0 ⟨1, "t", none, none, none, [], none, none⟩).is_done &&
       !(processTask (buildLookups [] [] [] []) 0 ⟨1, "t", none, none, none, [], none, none⟩).is_cancelled &&
       !(processTask (buildLookups [] [] [] []) 0 ⟨1, "t", none, none, none, [], none, none⟩).is_overdue].count true = 1 :=
  ⟨(statistics_partition [⟨1, "t", none, none, none, [], none, none⟩] [] [] [] [] 0).1,
   (statistics_partition [⟨1, "t", none, none, none, [], none, none⟩] [] [] [] [] 0).2.2.2.2.2.2
     (processTask (buildLookups [] [] [] []) 0 ⟨1, "t", none, none, none, [], none, none⟩)
     (by simp [process])⟩

theorem deadlineFields_not_overdue (current_time : Nat) (d c : Bool)
    (dl : Option Nat) (h : d = true ∨ c = true) :
    (deadlineFields current_time d c dl).is_overdue = false ∧
    (deadlineFields current_time d c dl).days_overdue = 0 ∧
    (deadlineFields current_time d c dl).calendar_days_to_deadline = 0 ∧
    (deadlineFields current_time d c dl).working_days_to_deadline = 0 := by
  have hdc : (!d && !c) = false := by
    rcases h with h | h <;> simp [h]
  cases dl with
  | none => simp [deadlineFields]
  | some t => simp [deadlineFields, hdc]

/-- **C7** (confirmed).  A done task (`is_closed == True`) or a cancelled task
(`state == "1_canceled"`) is never marked overdue and receives no
days-to-deadline figures, whatever its deadline; the statistics `if`/`elif`
chain counts it as done (or cancelled), never as overdue. -/
theorem done_cancelled_not_overdue (lk : Lookups) (now : Nat) (task : Task)
    (h : task.is_closed = some true ∨ task.state = some "1_canceled") :
    (processTask lk now task).is_overdue = false ∧
    (processTask lk now task).days_overdue = 0 ∧
    (processTask lk now task).calendar_days_to_deadline = 0 ∧
    (processTask lk now task).working_days_to_deadline = 0 ∧
    ((processTask lk now task).is_done = true ∨
      (!(processTask lk now task).is_done &&
        (processTask lk now task).is_cancelled) = true) ∧
    (!(processTask lk now task).is_done &&
      !(processTask lk now task).is_cancelled &&
      (processTask lk now task).is_overdue) = false := by
  have hdc : (task.is_closed == some true) = true ∨
      (task.state == some "1_canceled") = true := by
    rcases h with h | h
    · exact Or.inl (by simp [h])
    · exact Or.inr (by simp [h])
  have hdf := deadlineFields_not_overdue now (task.is_closed == some true)
    (task.state == some "1_canceled") task.date_deadline hdc
  simp only [processTask]
  refine ⟨hdf.1, hdf.2.1, hdf.2.2.1, hdf.2.2.2, ?_, ?_⟩
  · rcases hdc with h' | h'
    · exact Or.inl h'
    · rcases hb : (task.is_closed == some true) with _ | _
      · exact Or.inr (by simp [hb, h'])
      · exact Or.inl rfl
  · rcases hdc with h' | h' <;> simp [h', hdf.1]

theorem done_cancelled_not_overdue_witness :
    (processTask ⟨[], [], [], [], [], []⟩ 864000 ⟨1, "t", none, none, some 86400, [], some "1_done", some true⟩).is_overdue = false ∧
    (processTask ⟨[], [], [], [], [], []⟩ 864000 ⟨1, "t", none, none, some 86400, [], some "1_done", some true⟩).days_overdue = 0 ∧
    (processTask ⟨[], [], [], [], [], []⟩ 864000 ⟨1, "t", none, none, some 86400, [], some "1_done", some true⟩).calendar_days_to_deadline = 0 ∧
    (processTask ⟨[], [], [], [], [], []⟩ 864000 ⟨1, "t", none, none, some 86400, [], some "1_done", some true⟩).working_days_to_deadline = 0 ∧
    ((processTask ⟨[], [], [], [], [], []⟩ 864000 ⟨1, "t", none, none, some 86400, [], some "1_done", some true⟩).is_done = true ∨
      (!(processTask ⟨[], [], [], [], [], []⟩ 864000 ⟨1, "t", none, none, some 86400, [], some "1_done", some true⟩).is_done &&
        (processTask ⟨[], [], [], [], [], []⟩ 864000 ⟨1, "t", none, none, some 86400, [], some "1_done", some true⟩).is_cancelled) = true) ∧
    (!(processTask ⟨[], [], [], [], [], []⟩ 864000 ⟨1, "t", none, none, some 86400, [], some "1_done", some true⟩).is_done &&
      !(processTask ⟨[], [], [], [], [], []⟩ 864000 ⟨1, "t", none, none, some 86400, [], some "1_done", some true⟩).is_cancelled &&
      (processTask ⟨[], [], [], [], [], []⟩ 864000 ⟨1, "t", none, none, some 86400, [], some "1_done", some true⟩).is_overdue) = false :=
  done_cancelled_not_overdue ⟨[], [], [], [], [], []⟩ 864000
    ⟨1, "t", none, none, some 86400, [], some "1_done", some true⟩ (Or.inl rfl)

theorem deadlineFields_overdue_inv (current_time : Nat) (d c : Bool)
    (dl : Option Nat) :
    ((deadlineFields current_time d c dl).is_overdue = true →
      d = false ∧ c = false ∧
        1 ≤ (deadlineFields current_time d c dl).days_overdue) ∧
    ((deadlineFields current_time d c dl).days_overdue ≠ 0 →
      (deadlineFields current_time d c dl).is_overdue = true) := by
  cases dl with
  | none => simp [deadlineFields]
  | some t =>
    cases d <;> cases c <;> simp [deadlineFields] <;>
      by_cases hlt : dateOf t < dateOf current_time <;> simp [hlt] <;> omega

/-- **C9** (confirmed).  In the enricher's output, `is_overdue` implies the
task is neither done nor cancelled and `days_overdue ≥ 1`; conversely a
nonzero `days_overdue` only occurs on an overdue task. -/
theorem overdue_fields_consistent (lk : Lookups) (now : Nat) (task : Task) :
    ((processTask lk now task).is_overdue = true →
      (processTask lk now task).is_done = false ∧
      (processTask lk now task).is_cancelled = false ∧
      1 ≤ (processTask lk now task).days_overdue) ∧
    ((processTask lk now task).days_overdue ≠ 0 →
      (processTask lk now task).is_overdue = true) := by
  have h := deadlineFields_overdue_inv now (task.is_closed == some true)
    (task.state == some "1_canceled") task.date_deadline
  simp only [processTask]
  exact h

theorem overdue_fields_consistent_witness :
    (processTask ⟨[], [], [], [], [], []⟩ 864000 ⟨1, "t", none, none, some 86400, [], none, none⟩).is_done = false ∧
    (processTask ⟨[], [], [], [], [], []⟩ 864000 ⟨1, "t", none, none, some 86400, [], none, none⟩).is_cancelled = false ∧
    1 ≤ (processTask ⟨[], [], [], [], [], []⟩ 864000 ⟨1, "t", none, none, some 86400, [], none, none⟩).days_overdue :=
  (overdue_fields_consistent ⟨[], [], [], [], [], []⟩ 864000
    ⟨1, "t", none, none, some 86400, [], none, none⟩).1 (by decide)

theorem deadlineFields_today_weekend (current_time : Nat) (d c : Bool)
    (dl : Nat) :
    (deadlineFields current_time d c (some dl)).is_deadline_today =
      is_today dl current_time ∧
    (deadlineFields current_time d c (some dl)).is_deadline_weekend =
      is_weekend dl := by
  cases d <;> cases c <;> simp [deadlineFields] <;>
    by_cases hlt : dateOf dl < dateOf current_time <;> simp [hlt]

/-- **C10** (confirmed).  When a deadline is present, `is_deadline_today` and
`is_deadline_weekend` are computed from it even for done or cancelled tasks;
only the overdue and days-to-deadline fields are gated on the task being
neither done nor cancelled. -/
theorem deadline_today_weekend_ungated (lk : Lookups) (now : Nat) (task : Task)
    (dl : Nat) (h : task.date_deadline = some dl) :
    (processTask lk now task).is_deadline_today = is_today dl now ∧
    (processTask lk now task).is_deadline_weekend = is_weekend dl ∧
    (((processTask lk now task).is_done = true ∨
        (processTask lk now task).is_cancelled = true) →
      (processTask lk now task).is_overdue = false ∧
      (processTask lk now task).days_overdue = 0 ∧
      (processTask lk now task).calendar_days_to_deadline = 0 ∧
      (processTask lk now task).working_days_to_deadline = 0) := by
  have htw := deadlineFields_today_weekend now (task.is_closed == some true)
    (task.state == some "1_canceled") dl
  simp only [processTask, h]
  refine ⟨htw.1, htw.2, ?_⟩
  intro hdc
  exact deadlineFields_not_overdue now _ _ (some dl) hdc

theorem deadline_today_weekend_ungated_witness :
    (processTask ⟨[], [], [], [], [], []⟩ 0 ⟨1, "t", none, none, some 172800, [], none, some true⟩).is_deadline_today = is_today 172800 0 ∧
    (processTask ⟨[], [], [], [], [], []⟩ 0 ⟨1, "t", none, none, some 172800, [], none, some true⟩).is_deadline_weekend = is_weekend 172800 ∧
    (((processTask ⟨[], [], [], [], [], []⟩ 0 ⟨1, "t", none, none, some 172800, [], none, some true⟩).is_done = true ∨
        (processTask ⟨[], [], [], [], [], []⟩ 0 ⟨1, "t", none, none, some 172800, [], none, some true⟩).is_cancelled = true) →
      (processTask ⟨[], [], [], [], [], []⟩ 0 ⟨1, "t", none, none, some 172800, [], none, some true⟩).is_overdue = false ∧
      (processTask ⟨[], [], [], [], [], []⟩ 0 ⟨1, "t", none, none, some 172800, [], none, some true⟩).days_overdue = 0 ∧
      (processTask ⟨[], [], [], [], [], []⟩ 0 ⟨1, "t", none, none, some 172800, [], none, some true⟩).calendar_days_to_deadline = 0 ∧
      (processTask ⟨[], [], [], [], [], []⟩ 0 ⟨1, "t", none, none, some 172800, [], none, some true⟩).working_days_to_deadline = 0) :=
  deadline_today_weekend_ungated ⟨[], [], [], [], [], []⟩ 0
    ⟨1, "t", none, none, some 172800, [], none, some true⟩ 172800 rfl

theorem dictGet_map_eq_none {α β : Type} (f : α → Nat) (g : α → β)
    (l : List α) (k : Nat) (h : k ∉ l.map f) :
    dictGet (l.map fun a => (f a, g a)) k = none := by
  induction l with
  | nil => rfl
  | cons a l ih =>
    simp only [List.map_cons, List.mem_cons, not_or] at h
    simp only [List.map_cons, dictGet, ih h.2]
    rw [if_neg (fun hk => h.1 hk.symm)]

theorem dictGet_map_eq_some {α β : Type} (f : α → Nat) (g : α → β)
    (l : List α) (a : α) (hnd : (l.map f).Nodup) (ha : a ∈ l) :
    dictGet (l.map fun x => (f x, g x)) (f a) = some (g a) := by
  induction l with
  | nil => cases ha
  | cons b l ih =>
    rw [List.map_cons, List.nodup_cons] at hnd
    rcases List.mem_cons.mp ha with rfl | ha'
    · have hnotin : f a ∉ l.map f := hnd.1
      simp [List.map_cons, dictGet, dictGet_map_eq_none f g l _ hnotin]
    · simp only [List.map_cons, dictGet, ih hnd.2 ha']

/-- The enricher applied to one task: build the step-7 lookups from the
fetched collections, then run the step-8 loop body. -/
def enrichTask (ps : List Project) (us : List User) (ts rs : List Stage)
    (now : Nat) (tk : Task) : ProcessedTask :=
  processTask (buildLookups ps us ts rs) now tk

/-- **C6** (confirmed).  The enricher's fallbacks: a project present in the
lookup but without a manager reference resolves to `"No Manager"`; a project
id absent from the fetched projects resolves the manager to `"Unknown"` and
the project name to `"No Project"` (also used when the task has no project);
a missing user resolves to `"User {id}"`; a missing task stage to
`"No Stage"`; a missing project stage to `"No Project Stage"`. -/
theorem lookup_fallbacks (ps : List Project) (us : List User)
    (ts rs : List Stage) (now : Nat) (tk : Task)
    (hnd : (ps.map (·.id)).Nodup) :
    (∀ pr ∈ ps, pr.user_id = none →
      ∀ nm, tk.project_id = some (pr.id, nm) →
        (enrichTask ps us ts rs now tk).manager = "No Manager") ∧
    (∀ pid nm, tk.project_id = some (pid, nm) → pid ∉ ps.map (·.id) →
      (enrichTask ps us ts rs now tk).manager = "Unknown" ∧
      (enrichTask ps us ts rs now tk).project_name = "No Project") ∧
    (tk.project_id = none →
      (enrichTask ps us ts rs now tk).project_name = "No Project") ∧
    (∀ u ∈ tk.user_ids, u ∉ us.map (·.id) →
      ("User " ++ toString u) ∈ (enrichTask ps us ts rs now tk).assignees) ∧
    (∀ sid nm, tk.stage_id = some (sid, nm) → sid ∉ ts.map (·.id) →
      (enrichTask ps us ts rs now tk).stage_name = "No Stage") ∧
    (tk.stage_id = none →
      (enrichTask ps us ts rs now tk).stage_name = "No Stage") ∧
    (∀ sid, (enrichTask ps us ts rs now tk).project_stage_id = some sid →
      sid ∉ rs.map (·.id) →
      (enrichTask ps us ts rs now tk).project_stage_name = "No Project Stage") ∧
    ((enrichTask ps us ts rs now tk).project_stage_id = none →
      (enrichTask ps us ts rs now tk).project_stage_name = "No Project Stage") := by
  refine ⟨?_, ?_, ?_, ?_, ?_, ?_, ?_, ?_⟩
  · intro pr hpr hmgr nm hproj
    have hd := dictGet_map_eq_some (·.id)
      (fun p => match p.user_id with
                | some u => u.2
                | none => "No Manager") ps pr hnd hpr
    simp only [enrichTask, processTask, buildLookups, dictGetD, hproj,
      Option.map_some']
    rw [hd]
    simp [hmgr]
  · intro pid nm hproj hpid
    have hdm := dictGet_map_eq_none (·.id)
      (fun p => match p.user_id with
                | some u => u.2
                | none => "No Manager") ps pid hpid
    have hdn := dictGet_map_eq_none (·.id) (·.name) ps pid hpid
    constructor
    · simp only [enrichTask, processTask, buildLookups, dictGetD, hproj,
        Option.map_some']
      rw [hdm]
      rfl
    · simp only [enrichTask, processTask, buildLookups, dictGetD, hproj,
        Option.map_some']
      rw [hdn]
      rfl
  · intro hproj
    simp only [enrichTask, processTask, buildLookups, dictGetD, hproj,
      Option.map_none']
  · intro u hu hmiss
    have hd := dictGet_map_eq_none (·.id) (·.name) us u hmiss
    simp only [enrichTask, processTask, buildLookups]
    refine List.mem_map.mpr ⟨u, hu, ?_⟩
    rw [hd]
    rfl
  · intro sid nm hstage hsid
    have hd := dictGet_map_eq_none (·.id) (·.name) ts sid hsid
    simp only [enrichTask, processTask, buildLookups, dictGetD, hstage,
      Option.map_some']
    rw [hd]
    rfl
  · intro hstage
    simp only [enrichTask, processTask, buildLookups, dictGetD, hstage,
      Option.map_none']
  · intro sid hpsid hsid
    have hd := dictGet_map_eq_none (·.id) (·.name) rs sid hsid
    simp only [enrichTask, processTask, buildLookups] at hpsid ⊢
    rw [hpsid]
    simp only [dictGetD]
    rw [hd]
    rfl
  · intro hpsid
    simp only [enrichTask, processTask, buildLookups] at hpsid ⊢
    rw [hpsid]
    rfl

theorem lookup_fallbacks_witness :
    (enrichTask [⟨5, "P", none, none⟩] [] [] [] 0
      ⟨1, "t", some (5, "P"), none, none, [], none, none⟩).manager = "No Manager" ∧
    (enrichTask [] [] [] [] 0
      ⟨1, "t", some (7, "Q"), some (3, "S"), none, [9], none, none⟩).manager = "Unknown" ∧
    (enrichTask [] [] [] [] 0
      ⟨1, "t", some (7, "Q"), some (3, "S"), none, [9], none, none⟩).project_name = "No Project" ∧
    ("User " ++ toString 9) ∈ (enrichTask [] [] [] [] 0
      ⟨1, "t", some (7, "Q"), some (3, "S"), none, [9], none, none⟩).assignees ∧
    (enrichTask [] [] [] [] 0
      ⟨1, "t", some (7, "Q"), some (3, "S"), none, [9], none, none⟩).stage_name = "No Stage" ∧
    (enrichTask [] [] [] [] 0
      ⟨1, "t", some (7, "Q"), some (3, "S"), none, [9], none, none⟩).project_stage_name = "No Project Stage" :=
  ⟨(lookup_fallbacks [⟨5, "P", none, none⟩] [] [] [] 0
      ⟨1, "t", some (5, "P"), none, none, [], none, none⟩ (by simp)).1
      ⟨5, "P", none, none⟩ (by simp) rfl "P" rfl,
   ((lookup_fallbacks [] [] [] [] 0
      ⟨1, "t", some (7, "Q"), some (3, "S"), none, [9], none, none⟩ (by simp)).2.1
      7 "Q" rfl (by simp)).1,
   ((lookup_fallbacks [] [] [] [] 0
      ⟨1, "t", some (7, "Q"), some (3, "S"), none, [9], none, none⟩ (by simp)).2.1
      7 "Q" rfl (by simp)).2,
   (lookup_fallbacks [] [] [] [] 0
      ⟨1, "t", some (7, "Q"), some (3, "S"), none, [9], none, none⟩ (by simp)).2.2.2.1
      9 (by simp) (by simp),
   (lookup_fallbacks [] [] [] [] 0
      ⟨1, "t", some (7, "Q"), some (3, "S"), none, [9], none, none⟩ (by simp)).2.2.2.2.1
      3 "S" rfl (by simp),
   (lookup_fallbacks [] [] [] [] 0
      ⟨1, "t", some (7, "Q"), some (3, "S"), none, [9], none, none⟩ (by simp)).2.2.2.2.2.2.2
      (by decide)⟩

theorem abs_round1_sub (x : ℚ) : |round1 x - x| ≤ 1 / 20 := by
  unfold round1
  have h := abs_sub_round (x * 10)
  rw [abs_sub_comm] at h
  have e : (round (x * 10) : ℚ) / 10 - x = ((round (x * 10) : ℚ) - x * 10) / 10 := by
    ring
  rw [e, abs_div]
  have h10 : |(10 : ℚ)| = 10 := by norm_num
  rw [h10]
  linarith

theorem round1_four_sum (x1 x2 x3 x4 : ℚ) (h : x1 + x2 + x3 + x4 = 100) :
    |round1 x1 + round1 x2 + round1 x3 + round1 x4 - 100| ≤ 2 / 5 := by
  have h1 := abs_round1_sub x1
  have h2 := abs_round1_sub x2
  have h3 := abs_round1_sub x3
  have h4 := abs_round1_sub x4
  have e : round1 x1 + round1 x2 + round1 x3 + round1 x4 - 100 =
      (round1 x1 - x1) + (round1 x2 - x2) + (round1 x3 - x3) + (round1 x4 - x4) := by
    rw [← h]
    ring
  rw [e]
  have a1 := abs_add ((round1 x1 - x1) + (round1 x2 - x2) + (round1 x3 - x3))
    (round1 x4 - x4)
  have a2 := abs_add ((round1 x1 - x1) + (round1 x2 - x2)) (round1 x3 - x3)
  have a3 := abs_add (round1 x1 - x1) (round1 x2 - x2)
  have b1 := abs_sub_abs_le_abs_sub (round1 x1 - x1) 0
  linarith

theorem bumpStage_sum (t : ProcessedTask) (s : StageCounts)
    (h : s.total = s.done + s.overdue + s.in_progress + s.cancelled) :
    (bumpStage t s).total =
      (bumpStage t s).done + (bumpStage t s).overdue +
      (bumpStage t s).in_progress + (bumpStage t s).cancelled := by
  unfold bumpStage
  cases hd : t.is_done <;> cases hc : t.is_cancelled <;> cases ho : t.is_overdue <;>
    simp [hd, hc, ho] <;> omega

theorem updateStageStats_sum (acc : List (String × StageCounts))
    (t : ProcessedTask)
    (h : ∀ e ∈ acc,
      e.2.total = e.2.done + e.2.overdue + e.2.in_progress + e.2.cancelled) :
    ∀ e ∈ updateStageStats acc t,
      e.2.total = e.2.done + e.2.overdue + e.2.in_progress + e.2.cancelled := by
  intro e he
  unfold updateStageStats at he
  split at he
  · rcases List.mem_map.mp he with ⟨e0, he0, heq⟩
    split at heq
    · rw [← heq]
      exact bumpStage_sum t e0.2 (h e0 he0)
    · rw [← heq]
      exact h e0 he0
  · rcases List.mem_append.mp he with he' | he'
    · exact h e he'
    · rw [List.mem_singleton.mp he']
      exact bumpStage_sum t ⟨0, 0, 0, 0, 0⟩ rfl

theorem stageStatsOf_sum (pts : List ProcessedTask) :
    ∀ e ∈ stageStatsOf pts,
      e.2.total = e.2.done + e.2.overdue + e.2.in_progress + e.2.cancelled := by
  have main : ∀ (l : List ProcessedTask) (acc : List (String × StageCounts)),
      (∀ e ∈ acc,
        e.2.total = e.2.done + e.2.overdue + e.2.in_progress + e.2.cancelled) →
      ∀ e ∈ l.foldl updateStageStats acc,
        e.2.total = e.2.done + e.2.overdue + e.2.in_progress + e.2.cancelled := by
    intro l
    induction l with
    | nil =>
      intro acc h
      simpa using h
    | cons t l ih =>
      intro acc h
      simp only [List.foldl_cons]
      exact ih _ (updateStageStats_sum acc t h)
  exact main pts [] (by simp)

/-- **C8** (confirmed).  Every emitted project-stage group carries
percentages equal to `round(count/total × 100, 1)` (floats modelled as
rationals), and the four percentages sum to 100 within the rounding
tolerance `0.1 × 4 = 0.4`. -/
theorem stage_percentages_spec (tasks : List Task) (ps : List Project)
    (us : List User) (ts rs : List Stage) (now : Nat) :
    ∀ name e, (name, e) ∈ (process tasks ps us ts rs now).stage_statistics →
      (e.done_percentage =
        round1 ((e.done_count : ℚ) / (e.total : ℚ) * 100) ∧
       e.overdue_percentage =
        round1 ((e.overdue_count : ℚ) / (e.total : ℚ) * 100) ∧
       e.in_progress_percentage =
        round1 ((e.in_progress_count : ℚ) / (e.total : ℚ) * 100) ∧
       e.cancelled_percentage =
        round1 ((e.cancelled_count : ℚ) / (e.total : ℚ) * 100)) ∧
      |e.done_percentage + e.overdue_percentage + e.in_progress_percentage +
        e.cancelled_percentage - 100| ≤ 2 / 5 := by
  intro name e he
  simp only [process] at he
  unfold stagePercentages at he
  rcases List.mem_filterMap.mp he with ⟨⟨name0, s⟩, hs, heq⟩
  split at heq
  · rename_i hpos
    injection heq with heq'
    injection heq' with hname hentry
    have hsum : s.total = s.done + s.overdue + s.in_progress + s.cancelled :=
      stageStatsOf_sum _ _ hs
    have hpos' : 0 < s.total := hpos
    rw [← hentry]
    have hT : ((s.total : ℚ)) ≠ 0 := Nat.cast_ne_zero.mpr (by omega)
    have hc : (s.total : ℚ) =
        (s.done : ℚ) + (s.overdue : ℚ) + (s.in_progress : ℚ) + (s.cancelled : ℚ) := by
      exact_mod_cast hsum
    have hsum100 : (s.done : ℚ) / (s.total : ℚ) * 100 +
        (s.overdue : ℚ) / (s.total : ℚ) * 100 +
        (s.in_progress : ℚ) / (s.total : ℚ) * 100 +
        (s.cancelled : ℚ) / (s.total : ℚ) * 100 = 100 := by
      field_simp
      linarith
    refine ⟨⟨rfl, rfl, rfl, rfl⟩, ?_⟩
    exact round1_four_sum _ _ _ _ hsum100
  · cases heq

theorem stage_percentages_spec_witness :
    ((stageEntry ⟨1, 0, 0, 1, 0⟩).done_percentage =
      round1 (((stageEntry ⟨1, 0, 0, 1, 0⟩).done_count : ℚ) /
        ((stageEntry ⟨1, 0, 0, 1, 0⟩).total : ℚ) * 100) ∧
     (stageEntry ⟨1, 0, 0, 1, 0⟩).overdue_percentage =
      round1 (((stageEntry ⟨1, 0, 0, 1, 0⟩).overdue_count : ℚ) /
        ((stageEntry ⟨1, 0, 0, 1, 0⟩).total : ℚ) * 100) ∧
     (stageEntry ⟨1, 0, 0, 1, 0⟩).in_progress_percentage =
      round1 (((stageEntry ⟨1, 0, 0, 1, 0⟩).in_progress_count : ℚ) /
        ((stageEntry ⟨1, 0, 0, 1, 0⟩).total : ℚ) * 100) ∧
     (stageEntry ⟨1, 0, 0, 1, 0⟩).cancelled_percentage =
      round1 (((stageEntry ⟨1, 0, 0, 1, 0⟩).cancelled_count : ℚ) /
        ((stageEntry ⟨1, 0, 0, 1, 0⟩).total : ℚ) * 100)) ∧
    |(stageEntry ⟨1, 0, 0, 1, 0⟩).done_percentage +
      (stageEntry ⟨1, 0, 0, 1, 0⟩).overdue_percentage +
      (stageEntry ⟨1, 0, 0, 1, 0⟩).in_progress_percentage +
      (stageEntry ⟨1, 0, 0, 1, 0⟩).cancelled_percentage - 100| ≤ 2 / 5 :=
  stage_percentages_spec [⟨1, "t", none, none, none, [], none, none⟩] [] [] [] [] 0
    "No Project Stage" (stageEntry ⟨1, 0, 0, 1, 0⟩)
    (by
      have hss : (process [⟨1, "t", none, none, none, [], none, none⟩]
          [] [] [] [] 0).stage_statistics =
          [("No Project Stage", stageEntry ⟨1, 0, 0, 1, 0⟩)] := rfl
      rw [hss]
      exact List.mem_singleton.mpr rfl)

end TaskDashboard
